import Mathlib

/-!
Verification development for the requests-based web client of
ultimate-sitemap-parser (src/usp/web_client/requests_client.py).

The transport library (requests) is modelled by an oracle: the outcome of the
one requests.get call inside RequestsWebClient.get is supplied as a value of
TransportOutcome.  Bodies are byte lists, headers are association lists that
keep the casing with which they arrived, and Python None is Option.none.
Fallible Python code (the HTTPStatus enum lookup, which raises ValueError on
an unknown code) is embedded with Except.
-/

namespace USP

/-- The slice of requests.Response that requests_client.py reads: the numeric
status code, the optional reason phrase, the response headers and the body. -/
structure RequestsResponse where
  status_code : Int
  reason : Option String
  headers : List (String × String)
  content : List Nat
  deriving Repr, DecidableEq

/-- Python str() applied to an optional string: None prints as "None". -/
def pyStrOpt : Option String → String
  | none => "None"
  | some s => s

/-- Python truthiness of an optional string: None and "" are falsy. -/
def pyTruthyStr : Option String → Bool
  | none => false
  | some s => !(s == "")

/-- Python str.lower() as applied to HTTP header names (ASCII case
folding), written as a map over the character list. -/
def pyLower (s : String) : String :=
  String.mk (s.data.map Char.toLower)

/-- Python bytes slice b[:n], including the negative-stop convention. -/
def pySliceTo (l : List Nat) (n : Int) : List Nat :=
  if 0 ≤ n then l.take n.toNat else l.take ((l.length : Int) + n).toNat

/-- The value/phrase table of http.HTTPStatus (CPython 3.11 stdlib), the
registry consulted by RequestsWebClientSuccessResponse.status_message. -/
def HTTPStatusPhrases : List (Int × String) :=
  [(100, "Continue"), (101, "Switching Protocols"), (102, "Processing"),
   (103, "Early Hints"), (200, "OK"), (201, "Created"), (202, "Accepted"),
   (203, "Non-Authoritative Information"), (204, "No Content"),
   (205, "Reset Content"), (206, "Partial Content"), (207, "Multi-Status"),
   (208, "Already Reported"), (226, "IM Used"), (300, "Multiple Choices"),
   (301, "Moved Permanently"), (302, "Found"), (303, "See Other"),
   (304, "Not Modified"), (305, "Use Proxy"), (307, "Temporary Redirect"),
   (308, "Permanent Redirect"), (400, "Bad Request"), (401, "Unauthorized"),
   (402, "Payment Required"), (403, "Forbidden"), (404, "Not Found"),
   (405, "Method Not Allowed"), (406, "Not Acceptable"),
   (407, "Proxy Authentication Required"), (408, "Request Timeout"),
   (409, "Conflict"), (410, "Gone"), (411, "Length Required"),
   (412, "Precondition Failed"), (413, "Request Entity Too Large"),
   (414, "Request-URI Too Long"), (415, "Unsupported Media Type"),
   (416, "Requested Range Not Satisfiable"), (417, "Expectation Failed"),
   (418, "I\x27m a Teapot"), (421, "Misdirected Request"),
   (422, "Unprocessable Entity"), (423, "Locked"), (424, "Failed Dependency"),
   (425, "Too Early"), (426, "Upgrade Required"),
   (428, "Precondition Required"), (429, "Too Many Requests"),
   (431, "Request Header Fields Too Large"),
   (451, "Unavailable For Legal Reasons"), (500, "Internal Server Error"),
   (501, "Not Implemented"), (502, "Bad Gateway"),
   (503, "Service Unavailable"), (504, "Gateway Timeout"),
   (505, "HTTP Version Not Supported"), (506, "Variant Also Negotiates"),
   (507, "Insufficient Storage"), (508, "Loop Detected"),
   (510, "Not Extended"), (511, "Network Authentication Required")]

/-- HTTPStatus(code, None).phrase: the enum value lookup returns the phrase of
a registered member and raises ValueError on any other code (the second
argument None does not act as a default). -/
def HTTPStatusPhrase (code : Int) : Except String String :=
  match HTTPStatusPhrases.find? (fun p => p.fst == code) with
  | some p => Except.ok p.snd
  | none => Except.error (toString code ++ " is not a valid HTTPStatus")

/-- RequestsWebClientSuccessResponse: a wrapped requests response plus the
optional body-length cap the client was configured with. -/
structure RequestsWebClientSuccessResponse where
  requests_response : RequestsResponse
  max_response_data_length : Option Int
  deriving Repr, DecidableEq

/-- status_code(): int(self.__requests_response.status_code). -/
def RequestsWebClientSuccessResponse.status_code
    (self : RequestsWebClientSuccessResponse) : Int :=
  self.requests_response.status_code

/-- status_message(): the reason phrase, or, when that is falsy (None or ""),
HTTPStatus(self.status_code(), None).phrase — which can raise ValueError,
hence the Except result. -/
def RequestsWebClientSuccessResponse.status_message
    (self : RequestsWebClientSuccessResponse) : Except String String :=
  let message := self.requests_response.reason
  if pyTruthyStr message then Except.ok (pyStrOpt message)
  else HTTPStatusPhrase self.status_code

/-- header(name): self.__requests_response.headers.get(name.lower(), None);
the requests CaseInsensitiveDict compares keys after lower-casing both
sides, so the stored casing of the header is irrelevant too. -/
def RequestsWebClientSuccessResponse.header
    (self : RequestsWebClientSuccessResponse)
    (case_insensitive_name : String) : Option String :=
  (self.requests_response.headers.find?
      (fun kv => pyLower kv.fst == pyLower case_insensitive_name)).map
    Prod.snd

/-- raw_data(): the body, sliced to max_response_data_length when that limit
is truthy (set and non-zero), the whole body otherwise. -/
def RequestsWebClientSuccessResponse.raw_data
    (self : RequestsWebClientSuccessResponse) : List Nat :=
  match self.max_response_data_length with
  | some n =>
    if n == 0 then self.requests_response.content
    else pySliceTo self.requests_response.content n
  | none => self.requests_response.content

/-- Modelled from the spec: WebClientErrorResponse (abstract_client.py is not
under src/) — an Error carries "a message and a retryability flag". -/
structure RequestsWebClientErrorResponse where
  message : String
  retryable : Bool
  deriving Repr, DecidableEq

/-- Modelled from the spec: RETRYABLE_HTTP_STATUS_CODES (abstract_client.py is
not under src/) — "an immutable set of integer HTTP status codes (e.g., 408,
429, 500, 502, 503, 504)". -/
def RETRYABLE_HTTP_STATUS_CODES : List Int := [408, 429, 500, 502, 503, 504]

/-- The closed response variant: every call produces exactly one of these. -/
inductive AbstractWebClientResponse where
  | success (resp : RequestsWebClientSuccessResponse)
  | error (resp : RequestsWebClientErrorResponse)
  deriving Repr, DecidableEq

/-- Does the response hold the Success variant? -/
def AbstractWebClientResponse.isSuccessResp : AbstractWebClientResponse → Bool
  | .success _ => true
  | .error _ => false

/-- Does the response hold the Error variant? -/
def AbstractWebClientResponse.isErrorResp : AbstractWebClientResponse → Bool
  | .success _ => false
  | .error _ => true

/-- Default HTTP request timeout of the client (seconds). -/
def HTTP_REQUEST_TIMEOUT : Int := 60

/-- The mutable configuration slots of RequestsWebClient. -/
structure RequestsWebClient where
  max_response_data_length : Option Int
  timeout : Int
  proxies : List (String × String)
  deriving Repr, DecidableEq

/-- The constructor: no body cap, default timeout, no proxies. -/
def RequestsWebClient.init : RequestsWebClient :=
  { max_response_data_length := none, timeout := HTTP_REQUEST_TIMEOUT,
    proxies := [] }

/-- set_timeout. -/
def RequestsWebClient.set_timeout (self : RequestsWebClient) (t : Int) :
    RequestsWebClient :=
  { self with timeout := t }

/-- set_proxies. -/
def RequestsWebClient.set_proxies (self : RequestsWebClient)
    (p : List (String × String)) : RequestsWebClient :=
  { self with proxies := p }

/-- set_max_response_data_length. -/
def RequestsWebClient.set_max_response_data_length (self : RequestsWebClient)
    (n : Int) : RequestsWebClient :=
  { self with max_response_data_length := some n }

/-- The outcome of the requests.get transport call, as discriminated by the
try/except/else of RequestsWebClient.get: a requests.exceptions.Timeout, any
other requests.exceptions.RequestException (each carrying str(ex)), or a
received HTTP response. -/
inductive TransportOutcome where
  | timeoutExc (ex : String)
  | requestExc (ex : String)
  | response (resp : RequestsResponse)
  deriving Repr, DecidableEq

/-- Is the outcome a transport-level exception (as opposed to a response)? -/
def TransportOutcome.isTransportExc : TransportOutcome → Bool
  | .timeoutExc _ => true
  | .requestExc _ => true
  | .response _ => false

/-- RequestsWebClient.get.  The single requests.get call — issued with the
configured timeout, stream=True, a randomly chosen User-Agent and the
configured proxies — is modelled by the oracle argument.  The result pairs
the returned response with the post-call client state: the method body reads
the configuration slots but never assigns them. -/
def RequestsWebClient.get (self : RequestsWebClient)
    (outcome : TransportOutcome) :
    AbstractWebClientResponse × RequestsWebClient :=
  match outcome with
  | .timeoutExc ex =>
    (.error { message := ex, retryable := true }, self)
  | .requestExc ex =>
    (.error { message := ex, retryable := false }, self)
  | .response response =>
    if 200 ≤ response.status_code ∧ response.status_code < 300 then
      (.success { requests_response := response,
                  max_response_data_length := self.max_response_data_length },
       self)
    else
      let message := toString response.status_code ++ " "
        ++ pyStrOpt response.reason
      if response.status_code ∈ RETRYABLE_HTTP_STATUS_CODES then
        (.error { message := message, retryable := true }, self)
      else
        (.error { message := message, retryable := false }, self)

/-- Helper: on a non-2xx response, get maps to the Error built from the raw
status line, retryable by membership in the retryable set. -/
theorem get_response_error_eq (self : RequestsWebClient)
    (r : RequestsResponse)
    (h : ¬ (200 ≤ r.status_code ∧ r.status_code < 300)) :
    (self.get (TransportOutcome.response r)).fst =
      AbstractWebClientResponse.error
        { message := toString r.status_code ++ " " ++ pyStrOpt r.reason,
          retryable := decide (r.status_code ∈ RETRYABLE_HTTP_STATUS_CODES) } := by
  simp only [RequestsWebClient.get]
  rw [if_neg h]
  by_cases hm : r.status_code ∈ RETRYABLE_HTTP_STATUS_CODES
  · rw [if_pos hm]
    simp [hm]
  · rw [if_neg hm]
    simp [hm]

/-- C1: get always yields a Response value, and both every transport
exception and every non-2xx HTTP status are converted into the Error variant
rather than propagated. -/
theorem get_total_failures_become_errors (self : RequestsWebClient)
    (o : TransportOutcome) :
    ((self.get o).fst.isSuccessResp = true ∨
      (self.get o).fst.isErrorResp = true) ∧
    (o.isTransportExc = true → (self.get o).fst.isErrorResp = true) ∧
    (∀ r, o = TransportOutcome.response r →
      ¬ (200 ≤ r.status_code ∧ r.status_code < 300) →
      (self.get o).fst.isErrorResp = true) := by
  cases o with
  | timeoutExc ex => exact ⟨Or.inr rfl, fun _ => rfl, fun r hr => by cases hr⟩
  | requestExc ex => exact ⟨Or.inr rfl, fun _ => rfl, fun r hr => by cases hr⟩
  | response r =>
    by_cases h : 200 ≤ r.status_code ∧ r.status_code < 300
    · have hs : (self.get (TransportOutcome.response r)).fst =
          AbstractWebClientResponse.success
            { requests_response := r,
              max_response_data_length := self.max_response_data_length } := by
        simp only [RequestsWebClient.get]
        rw [if_pos h]
      refine ⟨Or.inl (by rw [hs]; rfl), ?_, ?_⟩
      · intro hexc
        exact nomatch hexc
      · intro r2 hr2 hcond
        cases hr2
        exact absurd h hcond
    · have he := get_response_error_eq self r h
      refine ⟨Or.inr (by rw [he]; rfl), ?_, ?_⟩
      · intro hexc
        rw [he]
        rfl
      · intro r2 hr2 hcond
        rw [he]
        rfl

/-- C1 witness: a concrete timeout and a concrete 404 response both come back
as the Error variant. -/
theorem get_total_failures_become_errors_witness :
    ((RequestsWebClient.init.get
        (TransportOutcome.timeoutExc "timed out")).fst.isErrorResp = true) ∧
    ((RequestsWebClient.init.get (TransportOutcome.response
        { status_code := 404, reason := none, headers := [],
          content := [] })).fst.isErrorResp = true) :=
  ⟨(get_total_failures_become_errors RequestsWebClient.init
      (TransportOutcome.timeoutExc "timed out")).2.1 rfl,
   (get_total_failures_become_errors RequestsWebClient.init
      (TransportOutcome.response
        { status_code := 404, reason := none, headers := [],
          content := [] })).2.2 _ rfl (by decide)⟩

/-- C2: a requests.exceptions.Timeout yields Error with the failure text and
retryable true; any other RequestException yields Error with the failure text
and retryable false. -/
theorem get_transport_exception_classification (self : RequestsWebClient)
    (ex : String) :
    self.get (TransportOutcome.timeoutExc ex) =
      (AbstractWebClientResponse.error { message := ex, retryable := true },
        self) ∧
    self.get (TransportOutcome.requestExc ex) =
      (AbstractWebClientResponse.error { message := ex, retryable := false },
        self) :=
  ⟨rfl, rfl⟩

/-- C3: a non-2xx HTTP response yields an Error whose message is the status
code and reason joined by a space, retryable exactly when the code belongs to
the retryable status set. -/
theorem get_http_error_classification (self : RequestsWebClient)
    (r : RequestsResponse)
    (h : ¬ (200 ≤ r.status_code ∧ r.status_code < 300)) :
    ∃ e, (self.get (TransportOutcome.response r)).fst =
        AbstractWebClientResponse.error e ∧
      e.message = toString r.status_code ++ " " ++ pyStrOpt r.reason ∧
      (e.retryable = true ↔ r.status_code ∈ RETRYABLE_HTTP_STATUS_CODES) := by
  refine ⟨_, get_response_error_eq self r h, rfl, ?_⟩
  simp

/-- C3 witness: a 503 response with reason "Service Unavailable" is retryable
and carries the joined status line, a 404 is not retryable. -/
theorem get_http_error_classification_witness :
    (RequestsWebClient.init.get (TransportOutcome.response
        { status_code := 503, reason := some "Service Unavailable",
          headers := [], content := [] })).fst =
      AbstractWebClientResponse.error
        { message := "503 Service Unavailable", retryable := true } := by
  obtain ⟨e, he, hmsg, hret⟩ := get_http_error_classification
    RequestsWebClient.init
    { status_code := 503, reason := some "Service Unavailable",
      headers := [], content := [] } (by decide)
  rw [he]
  have h1 : e.message = "503 Service Unavailable" := by rw [hmsg]; rfl
  have h2 : e.retryable = true := hret.mpr (by decide)
  rw [show e = { message := e.message, retryable := e.retryable } from rfl,
    h1, h2]

/-- C4: a 2xx HTTP response yields the Success variant wrapping the received
response, and its status_code() is exactly the received status code. -/
theorem get_success_exact_status (self : RequestsWebClient)
    (r : RequestsResponse) (h1 : 200 ≤ r.status_code)
    (h2 : r.status_code < 300) :
    (self.get (TransportOutcome.response r)).fst =
      AbstractWebClientResponse.success
        { requests_response := r,
          max_response_data_length := self.max_response_data_length } ∧
    RequestsWebClientSuccessResponse.status_code
      { requests_response := r,
        max_response_data_length := self.max_response_data_length } =
      r.status_code := by
  constructor
  · simp only [RequestsWebClient.get]
    rw [if_pos ⟨h1, h2⟩]
  · rfl

/-- C4 witness: a concrete 234 response comes back as Success with
status_code() equal to 234. -/
theorem get_success_exact_status_witness :
    (RequestsWebClient.init.get (TransportOutcome.response
        { status_code := 234, reason := some "OK", headers := [],
          content := [] })).fst =
      AbstractWebClientResponse.success
        { requests_response :=
            { status_code := 234, reason := some "OK", headers := [],
              content := [] },
          max_response_data_length := none } ∧
    RequestsWebClientSuccessResponse.status_code
      { requests_response :=
          { status_code := 234, reason := some "OK", headers := [],
            content := [] },
        max_response_data_length := none } = 234 :=
  get_success_exact_status RequestsWebClient.init
    { status_code := 234, reason := some "OK", headers := [], content := [] }
    (by decide) (by decide)

/-- C5: with a configured cap N > 0 the body is cut to exactly N bytes when
longer than N and returned whole when at most N; with the cap unset or 0 the
body is returned unmodified. -/
theorem raw_data_truncation (resp : RequestsResponse) (N : Nat)
    (hN : 0 < N) :
    ((N < resp.content.length →
        (RequestsWebClientSuccessResponse.raw_data
          { requests_response := resp,
            max_response_data_length := some (N : Int) }).length = N) ∧
      (resp.content.length ≤ N →
        RequestsWebClientSuccessResponse.raw_data
          { requests_response := resp,
            max_response_data_length := some (N : Int) } = resp.content)) ∧
    RequestsWebClientSuccessResponse.raw_data
      { requests_response := resp, max_response_data_length := none } =
      resp.content ∧
    RequestsWebClientSuccessResponse.raw_data
      { requests_response := resp, max_response_data_length := some 0 } =
      resp.content := by
  have hkey : RequestsWebClientSuccessResponse.raw_data
      { requests_response := resp,
        max_response_data_length := some (N : Int) } =
      resp.content.take N := by
    simp only [RequestsWebClientSuccessResponse.raw_data]
    rw [if_neg (by simp [hN.ne']), pySliceTo,
      if_pos (Int.natCast_nonneg N), Int.toNat_natCast]
  refine ⟨⟨fun hM => ?_, fun hM => ?_⟩, rfl, rfl⟩
  · rw [hkey, List.length_take]
    omega
  · rw [hkey, List.take_of_length_le hM]

/-- C5 witness: cap 2 on the 3-byte body [1, 2, 3] gives a 2-byte body. -/
theorem raw_data_truncation_witness :
    (RequestsWebClientSuccessResponse.raw_data
      { requests_response :=
          { status_code := 200, reason := none, headers := [],
            content := [1, 2, 3] },
        max_response_data_length := some 2 }).length = 2 :=
  (raw_data_truncation
    { status_code := 200, reason := none, headers := [], content := [1, 2, 3] }
    2 (by decide)).1.1 (by decide)

/-- C6 (refuting evaluation): on a Success response whose reason phrase is
empty and whose status code 599 is outside the standard registry,
status_message() does not fall back to a generic phrase — the
HTTPStatus(599, None) lookup raises ValueError. -/
theorem status_message_valueerror_on_nonstandard :
    RequestsWebClientSuccessResponse.status_message
      { requests_response :=
          { status_code := 599, reason := some "", headers := [],
            content := [] },
        max_response_data_length := none } =
      Except.error "599 is not a valid HTTPStatus" := rfl

/-- C7: header lookup gives the same value for any two casings of the name,
and gives none when no stored header matches the name up to case. -/
theorem header_case_insensitive (s : RequestsWebClientSuccessResponse)
    (n1 n2 : String) (h : pyLower n1 = pyLower n2) :
    s.header n1 = s.header n2 ∧
    ((∀ kv ∈ s.requests_response.headers, pyLower kv.fst ≠ pyLower n1) →
      s.header n1 = none) := by
  constructor
  · simp only [RequestsWebClientSuccessResponse.header, h]
  · intro habs
    have hfind : s.requests_response.headers.find?
        (fun kv => pyLower kv.fst == pyLower n1) = none := by
      rw [List.find?_eq_none]
      intro kv hkv
      simpa using habs kv hkv
    simp only [RequestsWebClientSuccessResponse.header, hfind]
    rfl

/-- C7 witness: on a response storing the header as "Content-Type", the
lookups under the names "Content-Type" and "content-type" agree. -/
theorem header_case_insensitive_witness :
    RequestsWebClientSuccessResponse.header
      { requests_response :=
          { status_code := 200, reason := some "OK",
            headers := [("Content-Type", "text/html")], content := [] },
        max_response_data_length := none } "Content-Type" =
    RequestsWebClientSuccessResponse.header
      { requests_response :=
          { status_code := 200, reason := some "OK",
            headers := [("Content-Type", "text/html")], content := [] },
        max_response_data_length := none } "content-type" :=
  (header_case_insensitive
    { requests_response :=
        { status_code := 200, reason := some "OK",
          headers := [("Content-Type", "text/html")], content := [] },
      max_response_data_length := none }
    "Content-Type" "content-type" (by decide)).1

/-- C8: get leaves the client configuration untouched — after any call the
timeout, the proxies mapping and the body-length cap equal their values
before the call. -/
theorem get_preserves_configuration (self : RequestsWebClient)
    (o : TransportOutcome) :
    (self.get o).snd.timeout = self.timeout ∧
    (self.get o).snd.proxies = self.proxies ∧
    (self.get o).snd.max_response_data_length =
      self.max_response_data_length := by
  have hsnd : (self.get o).snd = self := by
    cases o with
    | timeoutExc ex => rfl
    | requestExc ex => rfl
    | response r =>
      by_cases h : 200 ≤ r.status_code ∧ r.status_code < 300
      · simp only [RequestsWebClient.get]
        rw [if_pos h]
      · simp only [RequestsWebClient.get]
        rw [if_neg h]
        by_cases hm : r.status_code ∈ RETRYABLE_HTTP_STATUS_CODES
        · rw [if_pos hm]
        · rw [if_neg hm]
  rw [hsnd]
  exact ⟨rfl, rfl, rfl⟩

/-- C10: on a non-2xx response whose reason is absent, the Error message is
the code joined with the Python rendering "None" of the raw reason — no
standard-phrase fallback is applied in Error messages. -/
theorem error_message_uses_raw_reason (self : RequestsWebClient)
    (r : RequestsResponse) (hr : r.reason = none)
    (h : ¬ (200 ≤ r.status_code ∧ r.status_code < 300)) :
    (self.get (TransportOutcome.response r)).fst =
      AbstractWebClientResponse.error
        { message := toString r.status_code ++ " None",
          retryable :=
            decide (r.status_code ∈ RETRYABLE_HTTP_STATUS_CODES) } := by
  have hstr : ∀ a : String, a ++ " " ++ pyStrOpt none = a ++ " None" := by
    intro a
    rw [String.append_assoc]
    rfl
  rw [get_response_error_eq self r h, hr, hstr]

/-- C10 witness: a 404 with an absent reason produces the Error message
"404 None", not the standard-phrase fallback "404 Not Found". -/
theorem error_message_uses_raw_reason_witness :
    (RequestsWebClient.init.get (TransportOutcome.response
        { status_code := 404, reason := none, headers := [],
          content := [] })).fst =
      AbstractWebClientResponse.error
        { message := "404 None", retryable := false } := by
  have h := error_message_uses_raw_reason RequestsWebClient.init
    { status_code := 404, reason := none, headers := [], content := [] }
    rfl (by decide)
  rw [h]
  rfl

end USP
